import Mathlib

/-!
Verification of the MPRIS protocol adapter in `src/pithos/plugins/_mpris.py`
(class `PithosMprisService`).

The Python code is shallowly embedded as follows:
* D-Bus values exchanged over the bus become the inductive `DBusValue`;
  Python dictionaries become association lists `List (String × DBusValue)`.
* The host window and audio player (the external collaborators the adapter
  reads from and writes to) become the structure `Window`; the Gtk icon-theme
  lookup used for the fallback art URL is represented by the field
  `iconFilename` (its exact value is external to the adapter).
* The adapter's own mutable attributes (`self._volume`, `self._metadata`,
  `self._playback_status`) together with the window form `AdapterState`.
* Methods that can raise `dbus.exceptions.DBusException` return
  `Except DBusError _`; the two distinct exception shapes in the source are
  the constructors of `DBusError`.  Methods that mutate state are modelled
  as explicit state transformers; signal emissions (`Seeked`,
  `PropertiesChanged`) are returned as a list of `Signal` values.
* Python floats become real numbers (`math.pow` becomes `Real.rpow`).
* `bytes(s, 'ascii')` is fallible (it raises `UnicodeEncodeError` on a
  non-ASCII character); it is modelled by `asciiBytes`, returning `none`
  exactly when the Python call raises.  Python `None`/empty-string falsiness
  for the metadata text fields is modelled by unifying `None` with `""`
  (the `or` operator treats both identically); `pyOrStr` / `pyOrList`
  translate the `x or default` idiom.
-/

namespace Mpris

/-- Wire-level values held in the adapter's property tables.  `double` carries
a real number (a Python float), `int64` a Python integer (`dbus.Int64` or a
plain `int`), `strList` a Python list of strings, `dict` a nested
string-keyed dictionary. -/
inductive DBusValue where
  | str (s : String)
  | bool (b : Bool)
  | double (x : ℝ)
  | int64 (n : Int)
  | strList (l : List String)
  | dict (d : List (String × DBusValue))

/-- A host song object, with the fields `_update_metadata` reads.  Text
fields use `""` for Python `None` (both are falsy for `or`). -/
structure Song where
  title : String
  artist : String
  album : String
  rating : String
  artUrl : Option String
  audioUrl : String
  trackToken : String
  trackLength : Int
deriving DecidableEq

/-- The host window / audio player, as seen by the adapter: the methods and
properties of `self.window` and `self.window.player` that the source reads
or writes.  `volume` is `self.window.player.props.volume` (linear scale);
`query_position` / `query_duration` return nanoseconds or `None`;
`iconFilename` is the file name the Gtk icon-theme lookup would return for
the fallback art icon (an external collaborator of the adapter). -/
structure Window where
  current_song : Option Song
  playing : Bool
  waiting_for_playlist : Bool
  volume : ℝ
  query_position : Option Int
  query_duration : Option Int
  iconFilename : String

/-- The adapter's full state: the host plus the three attributes the service
object itself stores (`self._volume`, `self._metadata`,
`self._playback_status`). -/
structure AdapterState where
  window : Window
  _volume : ℝ
  _metadata : List (String × DBusValue)
  _playback_status : String

/-- The two distinct `dbus.exceptions.DBusException` shapes raised by the
source: `propertyNotFound iface prop` is
`DBusException(interface_name, 'Property %s was not found.' % property_name)`
raised by `Get`; `unsupportedInterface iface` is
`DBusException('org.mpris.MediaPlayer2.pithos', 'This object does not implement the %s interface' % interface_name)`
raised by `GetAll` and `Set`. -/
inductive DBusError where
  | propertyNotFound (interface_name property_name : String)
  | unsupportedInterface (interface_name : String)
deriving DecidableEq

/-- Bus signals the adapter can emit. -/
inductive Signal where
  | Seeked (position : Int)
  | PropertiesChanged (interface_name : String)
      (changed_properties : List (String × DBusValue))
      (invalidated_properties : List String)

def MEDIA_PLAYER2_IFACE : String := "org.mpris.MediaPlayer2"

def MEDIA_PLAYER2_PLAYER_IFACE : String := "org.mpris.MediaPlayer2.Player"

/-- Python `x or default` for strings (with `None` unified with `""`). -/
def pyOrStr (x default : String) : String :=
  if x = "" then default else x

/-- Python `x or default` for lists: a list is falsy exactly when empty.
In particular a one-element list is always truthy, whatever its element. -/
def pyOrList (x default : List String) : List String :=
  if x = [] then default else x

/-- Dictionary indexing `table[name]`, `none` modelling a `KeyError`. -/
def lookupProp (property_name : String) : List (String × DBusValue) → Option DBusValue
  | [] => none
  | (k, v) :: rest => if property_name = k then some v else lookupProp property_name rest

/-- Lowercase hexadecimal digit for a nibble, as produced by
`codecs.encode(-, 'hex')`. -/
def hexDigit (n : Nat) : Char :=
  if n < 10 then Char.ofNat (48 + n) else Char.ofNat (87 + n)

/-- The two hex digits of one byte. -/
def hexByte (b : Nat) : List Char :=
  [hexDigit (b / 16), hexDigit (b % 16)]

/-- Model of `bytes(s, 'ascii')`: the byte values of the string's characters,
or `none` when a character is outside ASCII (Python raises
`UnicodeEncodeError` there). -/
def asciiBytes (s : String) : Option (List Nat) :=
  if s.toList.all (fun c => c.toNat < 128) then some (s.toList.map Char.toNat)
  else none

/-- Model of `codecs.encode(bs, 'hex').decode('ascii')`. -/
def hexEncode (bs : List Nat) : String :=
  ⟨(bs.map hexByte).flatten⟩

/-- Property `_current_playback_status` of the source. -/
def _current_playback_status (w : Window) : String :=
  match w.current_song with
  | none => "Stopped"
  | some _ => if w.playing then "Playing" else "Paused"

/-- Property `_current_metadata` of the source: the cached metadata when
truthy (non-empty), else the no-track fallback dictionary. -/
def _current_metadata (s : AdapterState) : List (String × DBusValue) :=
  if ¬ s._metadata.isEmpty then
    s._metadata
  else
    [("mpris:trackid", .str "/org/mpris/MediaPlayer2/TrackList/NoTrack"),
     ("xesam:url", .str "")]

/-- Property `_current_volume` of the source:
`math.pow(self.window.player.get_property("volume"), 1.0/3.0)`. -/
noncomputable def _current_volume (w : Window) : ℝ :=
  w.volume ^ ((1.0 : ℝ) / 3.0)

/-- Property `_current_position` of the source: `query_position() // 1000`
when known, else `0`.  Python `//` is floor division, `Int.fdiv`. -/
def _current_position (w : Window) : Int :=
  match w.query_position with
  | some p => Int.fdiv p 1000
  | none => 0

/-- Property `_current_duration` of the source: the engine-reported duration
(`query_duration() // 1000`) when known, else
`self.window.current_song.trackLength * 1000000`; `none` models the
`AttributeError` raised when neither is available. -/
def _current_duration (w : Window) : Option Int :=
  match w.query_duration with
  | some d => some (Int.fdiv d 1000)
  | none => w.current_song.map (fun song => song.trackLength * 1000000)

/-- Method `_set_volume` of the source:
`self.window.player.set_property('volume', new_volume)`. -/
def _set_volume (new_volume : ℝ) (s : AdapterState) : AdapterState :=
  { s with window := { s.window with volume := new_volume } }

/-- Method `_update_metadata` of the source.  Returns the dictionary stored
into `self._metadata` (the caller performs the store), or `none` when the
Python code would raise (non-ASCII track token, or duration unavailable with
no current song). -/
def _update_metadata (song : Song) (w : Window) : Option (List (String × DBusValue)) :=
  let userRating : Int := if song.rating = "love" then 5 else 0
  let artUrl : String :=
    match song.artUrl with
    | some u => u
    | none => "file://" ++ w.iconFilename
  match asciiBytes song.trackToken, _current_duration w with
  | some bs, some dur =>
      some [("mpris:trackid", .str ("/io/github/Pithos/TrackId/" ++ hexEncode bs)),
            ("xesam:title", .str (pyOrStr song.title "Title Unknown")),
            ("xesam:artist", .strList (pyOrList [song.artist] ["Artist Unknown"])),
            ("xesam:album", .str (pyOrStr song.album "Album Unknown")),
            ("xesam:userRating", .int64 userRating),
            ("mpris:artUrl", .str artUrl),
            ("xesam:url", .str song.audioUrl),
            ("mpris:length", .int64 dur),
            ("pithos:rating", .str (pyOrStr song.rating ""))]
  | _, _ => none

/-- Handler `_playstate_handler` of the source: updates
`self._playback_status` and emits `PropertiesChanged` only when the newly
computed status differs from the stored one. -/
def _playstate_handler (state : Bool) (s : AdapterState) : AdapterState × List Signal :=
  let play_state := if state then "Playing" else "Paused"
  if s._playback_status ≠ play_state then
    ({ s with _playback_status := play_state },
     [.PropertiesChanged MEDIA_PLAYER2_PLAYER_IFACE
        [("PlaybackStatus", .str play_state)] []])
  else (s, [])

/-- Handler `_volumechange_handler` of the source: recomputes the cube-root
volume from the player and emits only when it differs from `self._volume`. -/
noncomputable def _volumechange_handler (s : AdapterState) : AdapterState × List Signal :=
  let volume := s.window.volume ^ ((1.0 : ℝ) / 3.0)
  if s._volume ≠ volume then
    ({ s with _volume := volume },
     [.PropertiesChanged MEDIA_PLAYER2_PLAYER_IFACE [("Volume", .double volume)] []])
  else (s, [])

/-- Handler `_metadatachange_handler` of the source: when the changed song is
the current song (the Python `is` identity test, which the handler only ever
meets with the window's own current song, modelled by equality), rebuild and
store the metadata and emit a `PropertiesChanged` unconditionally.  `none`
models a propagated exception from `_update_metadata`. -/
def _metadatachange_handler (song : Song) (s : AdapterState) :
    Option (AdapterState × List Signal) :=
  if s.window.current_song = some song then
    match _update_metadata song s.window with
    | some md =>
        some ({ s with _metadata := md },
              [.PropertiesChanged MEDIA_PLAYER2_PLAYER_IFACE
                 [("Metadata", .dict md)] []])
    | none => none
  else some (s, [])

/-- Method `GetAll` of the source: the per-interface property tables, or the
unsupported-interface fault.  Pair ordering matches the source dictionary
literals. -/
noncomputable def GetAll (interface_name : String) (s : AdapterState) :
    Except DBusError (List (String × DBusValue)) × AdapterState :=
  if interface_name = MEDIA_PLAYER2_IFACE then
    (.ok [("CanQuit", .bool true),
          ("CanRaise", .bool true),
          ("HasTrackList", .bool false),
          ("Identity", .str "Pithos"),
          ("DesktopEntry", .str "pithos"),
          ("SupportedUriSchemes", .strList [""]),
          ("SupportedMimeTypes", .strList [""])], s)
  else if interface_name = MEDIA_PLAYER2_PLAYER_IFACE then
    (.ok [("PlaybackStatus", .str (_current_playback_status s.window)),
          ("LoopStatus", .str "None"),
          ("Rate", .double 1.0),
          ("Shuffle", .bool false),
          ("Metadata", .dict (_current_metadata s)),
          ("Volume", .double (_current_volume s.window)),
          ("Position", .int64 (_current_position s.window)),
          ("MinimumRate", .double 1.0),
          ("MaximumRate", .double 1.0),
          ("CanGoNext", .bool true),
          ("CanGoPrevious", .bool false),
          ("CanPlay", .bool true),
          ("CanPause", .bool true),
          ("CanSeek", .bool true),
          ("CanControl", .bool true)], s)
  else
    (.error (.unsupportedInterface interface_name), s)

/-- Method `Get` of the source: index the `GetAll` table, converting a
`KeyError` into the property-not-found fault; a `DBusException` raised by
`GetAll` itself propagates unchanged (the `except` clause only catches
`KeyError`). -/
noncomputable def Get (interface_name property_name : String) (s : AdapterState) :
    Except DBusError DBusValue × AdapterState :=
  match GetAll interface_name s with
  | (.ok table, s') =>
      match lookupProp property_name table with
      | some v => (.ok v, s')
      | none => (.error (.propertyNotFound interface_name property_name), s')
  | (.error e, s') => (.error e, s')

/-- Method `Set` of the source.  The root interface branch is `pass`;
the player branch writes the cubed value to the host only for `Volume`
(and silently falls through for every other property name); any other
interface name raises the unsupported-interface fault. -/
noncomputable def Set (interface_name property_name : String) (new_value : ℝ)
    (s : AdapterState) : Except DBusError Unit × AdapterState :=
  if interface_name = MEDIA_PLAYER2_IFACE then
    (.ok (), s)
  else if interface_name = MEDIA_PLAYER2_PLAYER_IFACE then
    if property_name = "Volume" then
      (.ok (), _set_volume (new_value ^ ((3.0 : ℝ) / 1.0)) s)
    else
      (.ok (), s)
  else
    (.error (.unsupportedInterface interface_name), s)

/-- Method `SetPosition` of the source: no state change; it only emits a
`Seeked` signal carrying the current position.  Both arguments are ignored
by the source body. -/
def SetPosition (_trackid : String) (_position : Int) (s : AdapterState) :
    AdapterState × List Signal :=
  (s, [.Seeked (_current_position s.window)])

/-- Python `isinstance(v, str)` on a wire value. -/
def pyIsInstanceStr : DBusValue → Bool
  | .str _ => true
  | _ => false

/-- Python `isinstance(v, bool)` on a wire value. -/
def pyIsInstanceBool : DBusValue → Bool
  | .bool _ => true
  | _ => false

/-- Python `isinstance(v, float)` on a wire value (`dbus.Double` is a float
subclass). -/
def pyIsInstanceFloat : DBusValue → Bool
  | .double _ => true
  | _ => false

/-- Python `isinstance(v, int)` on a wire value.  In Python `bool` is a
subclass of `int`, so booleans also satisfy this test — which is why the
source checks `bool` before `int`. -/
def pyIsInstanceInt : DBusValue → Bool
  | .bool _ => true
  | .int64 _ => true
  | _ => false

/-- Python `isinstance(v, list)` on a wire value. -/
def pyIsInstanceList : DBusValue → Bool
  | .strList _ => true
  | _ => false

/-- Python `isinstance(v, dict)` on a wire value. -/
def pyIsInstanceDict : DBusValue → Bool
  | .dict _ => true
  | _ => false

/-- The signature-inference chain of `Introspect`, in source order:
str, bool, float, int, list, dict.  When no branch matches, no `type`
attribute is set (`none`). -/
def inferSignature (value : DBusValue) : Option String :=
  if pyIsInstanceStr value then some "s"
  else if pyIsInstanceBool value then some "b"
  else if pyIsInstanceFloat value then some "d"
  else if pyIsInstanceInt value then some "x"
  else if pyIsInstanceList value then some "as"
  else if pyIsInstanceDict value then some "a{sv}"
  else none

/-- One `<property>` element appended by `Introspect`: name, access
attribute and inferred type attribute. -/
structure PropDescriptor where
  name : String
  access : String
  type : Option String
deriving DecidableEq

/-- The body of the `Introspect` augmentation loop for one property entry:
access defaults to `"read"` and is `"readwrite"` exactly for `Volume`. -/
def introspectProp (item : String) (value : DBusValue) : PropDescriptor :=
  { name := item,
    access := if item = "Volume" then "readwrite" else "read",
    type := inferSignature value }

/-- The property descriptors `Introspect` appends to interface element
`interface_name` (one per entry of `GetAll(interface_name)`, in table
order).  The surrounding XML handling is external; this is the
augmentation the loop performs for an interface whose name matches the
supported family. -/
noncomputable def introspectProps (interface_name : String) (s : AdapterState) :
    List PropDescriptor :=
  match (GetAll interface_name s).1 with
  | .ok table => table.map (fun p => introspectProp p.1 p.2)
  | .error _ => []

/-- Characters allowed inside a D-Bus object-path element:
`[A-Z][a-z][0-9]_`. -/
def isPathChar (c : Char) : Bool :=
  (65 ≤ c.toNat && c.toNat ≤ 90) || (97 ≤ c.toNat && c.toNat ≤ 122) ||
    (48 ≤ c.toNat && c.toNat ≤ 57) || (c.toNat = 95)

/-- No two consecutive slashes. -/
def noDoubleSlash : List Char → Bool
  | [] => true
  | [_] => true
  | a :: b :: rest => !(a = '/' && b = '/') && noDoubleSlash (b :: rest)

/-- Modelled from the spec: syntactic validity of a protocol (D-Bus)
object path, which the source never checks explicitly — it relies on hex
encoding to produce one.  A valid path begins with `/`, is either exactly
`/` or does not end with `/`, has no empty element (`//`), and uses only
element characters and slashes after the leading slash. -/
def isValidObjectPathChars : List Char → Bool
  | [] => false
  | c :: rest =>
      c = '/' &&
      (rest.isEmpty ||
        (rest.all (fun d => isPathChar d || d = '/') &&
         noDoubleSlash (c :: rest) &&
         !(rest.getLast? = some '/')))

/-- Modelled from the spec: object-path validity of a string. -/
def isValidObjectPath (p : String) : Bool :=
  isValidObjectPathChars p.toList

/-- A sample song used by concrete witnesses. -/
def sampleSong : Song :=
  { title := "Test Title", artist := "Test Artist", album := "Test Album",
    rating := "love", artUrl := some "http://example.com/art.jpg",
    audioUrl := "http://example.com/audio.mp3", trackToken := "ab",
    trackLength := 180 }

/-- A sample window holding `sampleSong`. -/
def sampleWindow : Window :=
  { current_song := some sampleSong, playing := true,
    waiting_for_playlist := false, volume := 1,
    query_position := some 2000000, query_duration := some 5000000,
    iconFilename := "/usr/share/icons/audio-x-generic.svg" }

/-- The metadata dictionary `_update_metadata` builds for `sampleSong` in
`sampleWindow` (trackToken `"ab"` hex-encodes to `"6162"`; the engine
duration 5000000 ns floor-divides to 5000). -/
def sampleMetadata : List (String × DBusValue) :=
  [("mpris:trackid", .str "/io/github/Pithos/TrackId/6162"),
   ("xesam:title", .str "Test Title"),
   ("xesam:artist", .strList ["Test Artist"]),
   ("xesam:album", .str "Test Album"),
   ("xesam:userRating", .int64 5),
   ("mpris:artUrl", .str "http://example.com/art.jpg"),
   ("xesam:url", .str "http://example.com/audio.mp3"),
   ("mpris:length", .int64 5000),
   ("pithos:rating", .str "love")]

/-- A sample adapter state whose cached metadata is exactly what
`_update_metadata` would rebuild for the current song. -/
def sampleState : AdapterState :=
  { window := sampleWindow, _volume := 1, _metadata := sampleMetadata,
    _playback_status := "Playing" }

/-- A sample state with no cached metadata (fresh adapter, no track seen). -/
def emptyState : AdapterState :=
  { window := sampleWindow, _volume := 1, _metadata := [],
    _playback_status := "Stopped" }

/-- A song whose artist is absent/empty (`None` or `""` in Python). -/
def noArtistSong : Song :=
  { sampleSong with artist := "", rating := "" }

/-- A song whose track token contains a non-ASCII character (U+00A1). -/
def nonAsciiSong : Song :=
  { sampleSong with trackToken := "¡" }

/-- Indexing a table with a key that is not among its keys yields `none`
(a `KeyError` in the source). -/
theorem lookupProp_eq_none (property_name : String) (table : List (String × DBusValue))
    (h : property_name ∉ table.map Prod.fst) : lookupProp property_name table = none := by
  induction table with
  | nil => rfl
  | cons p rest ih =>
    simp only [List.map_cons, List.mem_cons, not_or] at h
    obtain ⟨h1, h2⟩ := h
    obtain ⟨k, v⟩ := p
    simp only [lookupProp]
    rw [if_neg h1]
    exact ih h2

/-- `GetAll` never mutates the adapter or host state. -/
theorem GetAll_state (interface_name : String) (s : AdapterState) :
    (GetAll interface_name s).2 = s := by
  unfold GetAll
  split
  · rfl
  · split <;> rfl

/-- String concatenation concatenates the character lists. -/
theorem toList_append (s t : String) : (s ++ t).toList = s.toList ++ t.toList := by
  cases s; cases t; rfl

/-- Both hex digits of an ASCII byte are object-path element characters,
and in particular not slashes. -/
theorem hexByte_pathChars : ∀ b < 128, ∀ c ∈ hexByte b, isPathChar c = true ∧ ¬ c = '/' := by
  decide

/-- Every character of the hex encoding of ASCII bytes is an object-path
element character, and not a slash. -/
theorem hexChars_pathChars (bs : List Nat) (hb : ∀ b ∈ bs, b < 128) :
    ∀ c ∈ (bs.map hexByte).flatten, isPathChar c = true ∧ ¬ c = '/' := by
  intro c hc
  rw [List.mem_flatten] at hc
  obtain ⟨l, hl, hcl⟩ := hc
  rw [List.mem_map] at hl
  obtain ⟨b, hbmem, rfl⟩ := hl
  exact hexByte_pathChars b (hb b hbmem) c hcl

/-- A slash-free character list has no double slash. -/
theorem noDoubleSlash_of_no_slash :
    ∀ l : List Char, (∀ c ∈ l, ¬ c = '/') → noDoubleSlash l = true := by
  intro l
  induction l with
  | nil => intro _; rfl
  | cons a t ih =>
    intro h
    cases t with
    | nil => rfl
    | cons b t2 =>
      have hb : ¬ b = '/' := h b (by simp)
      have ht : ∀ c ∈ b :: t2, ¬ c = '/' := fun c hc => h c (List.mem_cons_of_mem _ hc)
      simp only [noDoubleSlash, Bool.and_eq_true, Bool.not_eq_true']
      exact ⟨by simp [hb], ih ht⟩

/-- A single leading slash before a slash-free list has no double slash. -/
theorem noDoubleSlash_slash_cons (l : List Char) (h : ∀ c ∈ l, ¬ c = '/') :
    noDoubleSlash ('/' :: l) = true := by
  cases l with
  | nil => rfl
  | cons b t2 =>
    have hb : ¬ b = '/' := h b (by simp)
    simp only [noDoubleSlash, Bool.and_eq_true, Bool.not_eq_true']
    exact ⟨by simp [hb], noDoubleSlash_of_no_slash _ h⟩

/-- The trackId synthesized from a nonempty list of ASCII bytes is a
syntactically valid object path. -/
theorem trackid_path_valid (bs : List Nat) (hne : bs ≠ []) (hb : ∀ b ∈ bs, b < 128) :
    isValidObjectPath ("/io/github/Pithos/TrackId/" ++ hexEncode bs) = true := by
  have hchars := hexChars_pathChars bs hb
  have hnil : (bs.map hexByte).flatten ≠ [] := by
    cases bs with
    | nil => exact absurd rfl hne
    | cons b t => simp [hexByte]
  have htl : ("/io/github/Pithos/TrackId/" ++ hexEncode bs).toList
      = '/' :: (['i', 'o', '/', 'g', 'i', 't', 'h', 'u', 'b', '/', 'P', 'i', 't', 'h',
                 'o', 's', '/', 'T', 'r', 'a', 'c', 'k', 'I', 'd', '/']
                ++ (bs.map hexByte).flatten) := by
    rw [toList_append]; rfl
  rw [isValidObjectPath, htl]
  simp only [isValidObjectPathChars, Bool.and_eq_true, Bool.or_eq_true]
  refine ⟨by simp, Or.inr ⟨⟨?_, ?_⟩, ?_⟩⟩
  · rw [List.all_append]
    refine (Bool.and_eq_true _ _).mpr ⟨by decide, ?_⟩
    rw [List.all_eq_true]
    intro c hc
    simp [(hchars c hc).1]
  · simp only [List.cons_append, List.nil_append, noDoubleSlash, List.append_eq]
    rw [noDoubleSlash_slash_cons _ (fun c hc => (hchars c hc).2)]
    simp
  · rw [List.getLast?_append]
    rw [List.getLast?_eq_getLast_of_ne_nil hnil]
    have hmem := List.getLast_mem hnil
    simp [(hchars _ hmem).2]

/-- C1: for a host linear volume in `[0,1]`, the volume the adapter reports
over the protocol (in the `GetAll`/`Get` property table and in volume-change
notifications) is its cube root, and a protocol volume `v` accepted by
`Set('org.mpris.MediaPlayer2.Player', 'Volume', v)` writes `v ^ 3` back to
the host; reading the volume back after such a write (cube then cube root)
returns exactly the original value, hence within any floating tolerance. -/
theorem C1_volume_cube_root_mapping (s : AdapterState) (v : ℝ)
    (h0 : 0 ≤ s.window.volume) (h1 : s.window.volume ≤ 1)
    (hv0 : 0 ≤ v) (hv1 : v ≤ 1) :
    ((GetAll MEDIA_PLAYER2_PLAYER_IFACE s).1.map (lookupProp "Volume")
        = .ok (some (.double (s.window.volume ^ ((1 : ℝ) / 3)))))
    ∧ ((_volumechange_handler s).2 = [] ∨
        (_volumechange_handler s).2
          = [.PropertiesChanged MEDIA_PLAYER2_PLAYER_IFACE
               [("Volume", .double (s.window.volume ^ ((1 : ℝ) / 3)))] []])
    ∧ ((Set MEDIA_PLAYER2_PLAYER_IFACE "Volume" v s).2.window.volume = v ^ (3 : ℝ))
    ∧ (_current_volume (Set MEDIA_PLAYER2_PLAYER_IFACE "Volume" v s).2.window = v) := by
  have h13 : ((1.0 : ℝ) / 3.0) = (1 : ℝ) / 3 := by norm_num
  have h31 : ((3.0 : ℝ) / 1.0) = (3 : ℝ) := by norm_num
  refine ⟨?_, ?_, ?_, ?_⟩
  · have hg : (GetAll MEDIA_PLAYER2_PLAYER_IFACE s).1.map (lookupProp "Volume")
        = .ok (some (.double (s.window.volume ^ ((1.0 : ℝ) / 3.0)))) := rfl
    rw [hg, h13]
  · have hunf : _volumechange_handler s =
        if s._volume ≠ s.window.volume ^ ((1.0 : ℝ) / 3.0) then
          ({ s with _volume := s.window.volume ^ ((1.0 : ℝ) / 3.0) },
           [.PropertiesChanged MEDIA_PLAYER2_PLAYER_IFACE
              [("Volume", .double (s.window.volume ^ ((1.0 : ℝ) / 3.0)))] []])
        else (s, []) := rfl
    by_cases hc : s._volume ≠ s.window.volume ^ ((1.0 : ℝ) / 3.0)
    · right
      rw [hunf, if_pos hc, h13]
    · left
      rw [hunf, if_neg hc]
  · have hw : (Set MEDIA_PLAYER2_PLAYER_IFACE "Volume" v s).2.window.volume
        = v ^ ((3.0 : ℝ) / 1.0) := rfl
    rw [hw, h31]
  · have hr : _current_volume (Set MEDIA_PLAYER2_PLAYER_IFACE "Volume" v s).2.window
        = (v ^ ((3.0 : ℝ) / 1.0)) ^ ((1.0 : ℝ) / 3.0) := rfl
    rw [hr, h31, h13, ← Real.rpow_mul hv0]
    norm_num

/-- C1 witness: the mapping evaluated at the sample state (host volume `1`)
and protocol volume `1/2`. -/
theorem C1_volume_witness :
    ((GetAll MEDIA_PLAYER2_PLAYER_IFACE sampleState).1.map (lookupProp "Volume")
        = .ok (some (.double (sampleState.window.volume ^ ((1 : ℝ) / 3)))))
    ∧ ((_volumechange_handler sampleState).2 = [] ∨
        (_volumechange_handler sampleState).2
          = [.PropertiesChanged MEDIA_PLAYER2_PLAYER_IFACE
               [("Volume", .double (sampleState.window.volume ^ ((1 : ℝ) / 3)))] []])
    ∧ ((Set MEDIA_PLAYER2_PLAYER_IFACE "Volume" (1 / 2) sampleState).2.window.volume
        = ((1 : ℝ) / 2) ^ (3 : ℝ))
    ∧ (_current_volume (Set MEDIA_PLAYER2_PLAYER_IFACE "Volume" (1 / 2) sampleState).2.window
        = 1 / 2) :=
  C1_volume_cube_root_mapping sampleState (1 / 2)
    (by norm_num [sampleState, sampleWindow]) (by norm_num [sampleState, sampleWindow])
    (by norm_num) (by norm_num)

/-- C2: `GetAll` on an interface other than the two supported names fails
with the unsupported-interface fault, and `Get` on a known interface with a
property name absent from that interface's table fails with a
property-not-found fault naming the missing property; in both cases the
state is returned unchanged. -/
theorem C2_unknown_interface_and_property (s : AdapterState)
    (interface_name property_name : String) :
    (interface_name ≠ MEDIA_PLAYER2_IFACE → interface_name ≠ MEDIA_PLAYER2_PLAYER_IFACE →
      GetAll interface_name s = (.error (.unsupportedInterface interface_name), s))
    ∧ (∀ table, (GetAll interface_name s).1 = .ok table →
        property_name ∉ table.map Prod.fst →
        Get interface_name property_name s
          = (.error (.propertyNotFound interface_name property_name), s)) := by
  constructor
  · intro h1 h2
    unfold GetAll
    rw [if_neg h1, if_neg h2]
  · intro table htab hmem
    have hpair : GetAll interface_name s = (.ok table, s) :=
      Prod.ext htab (GetAll_state _ _)
    have hlook := lookupProp_eq_none property_name table hmem
    calc Get interface_name property_name s
        = (match lookupProp property_name table with
           | some v => (Except.ok v, s)
           | none => (.error (.propertyNotFound interface_name property_name), s)) := by
          unfold Get; rw [hpair]
      _ = (.error (.propertyNotFound interface_name property_name), s) := by rw [hlook]

/-- C2 witness: an unknown interface and a missing property at the sample
state. -/
theorem C2_error_witness :
    GetAll "com.example.Foo" sampleState
      = (.error (.unsupportedInterface "com.example.Foo"), sampleState)
    ∧ Get MEDIA_PLAYER2_IFACE "NoSuchProp" sampleState
      = (.error (.propertyNotFound MEDIA_PLAYER2_IFACE "NoSuchProp"), sampleState) :=
  ⟨(C2_unknown_interface_and_property sampleState "com.example.Foo" "NoSuchProp").1
      (by decide) (by decide),
   (C2_unknown_interface_and_property sampleState MEDIA_PLAYER2_IFACE "NoSuchProp").2
      [("CanQuit", .bool true), ("CanRaise", .bool true), ("HasTrackList", .bool false),
       ("Identity", .str "Pithos"), ("DesktopEntry", .str "pithos"),
       ("SupportedUriSchemes", .strList [""]), ("SupportedMimeTypes", .strList [""])]
      rfl (by decide)⟩

/-- C3: `SetPosition` leaves the whole adapter state (hence the reported
`Position` and everything else) unchanged, and emits exactly one `Seeked`
signal carrying the pre-call current position, whatever track id and
position were requested. -/
theorem C3_setposition_is_position_echo (trackid : String) (position : Int)
    (s : AdapterState) :
    ((SetPosition trackid position s).1 = s)
    ∧ ((SetPosition trackid position s).2 = [.Seeked (_current_position s.window)])
    ∧ ((GetAll MEDIA_PLAYER2_PLAYER_IFACE (SetPosition trackid position s).1).1.map
          (lookupProp "Position")
        = (GetAll MEDIA_PLAYER2_PLAYER_IFACE s).1.map (lookupProp "Position")) :=
  ⟨rfl, rfl, rfl⟩

/-- C4 counterexample: at the sample state the cached metadata already
equals the metadata rebuilt for the current song, yet the metadata-change
handler still emits a `PropertiesChanged` notification whose `Metadata`
value is structurally equal to the last published one (and the state is
unchanged).  The source's `_metadatachange_handler` has no equality guard,
unlike the play-state and volume handlers. -/
theorem C4_counterexample_redundant_metadata_emission :
    _metadatachange_handler sampleSong sampleState
      = some (sampleState,
          [.PropertiesChanged MEDIA_PLAYER2_PLAYER_IFACE
             [("Metadata", .dict sampleState._metadata)] []]) := rfl

/-- C4 (amended): the play-state and volume handlers never emit a
notification when the newly computed value equals the last published one;
the metadata handler has no such guard (see the counterexample). -/
theorem C4_no_redundant_status_volume_notifications (s : AdapterState) (state : Bool) :
    ((if state then "Playing" else "Paused") = s._playback_status →
      _playstate_handler state s = (s, []))
    ∧ (s.window.volume ^ ((1.0 : ℝ) / 3.0) = s._volume →
      _volumechange_handler s = (s, [])) := by
  constructor
  · intro h
    have hunf : _playstate_handler state s =
        if s._playback_status ≠ (if state then "Playing" else "Paused") then
          ({ s with _playback_status := (if state then "Playing" else "Paused") },
           [.PropertiesChanged MEDIA_PLAYER2_PLAYER_IFACE
              [("PlaybackStatus", .str (if state then "Playing" else "Paused"))] []])
        else (s, []) := rfl
    rw [hunf, if_neg (fun hne => hne h.symm)]
  · intro h
    have hunf : _volumechange_handler s =
        if s._volume ≠ s.window.volume ^ ((1.0 : ℝ) / 3.0) then
          ({ s with _volume := s.window.volume ^ ((1.0 : ℝ) / 3.0) },
           [.PropertiesChanged MEDIA_PLAYER2_PLAYER_IFACE
              [("Volume", .double (s.window.volume ^ ((1.0 : ℝ) / 3.0)))] []])
        else (s, []) := rfl
    rw [hunf, if_neg (fun hne => hne h.symm)]

/-- C4 witness: at the sample state (status already `"Playing"`, stored
volume `1` equal to the cube root of host volume `1`) neither guarded
handler emits. -/
theorem C4_quiet_witness :
    _playstate_handler true sampleState = (sampleState, [])
    ∧ _volumechange_handler sampleState = (sampleState, []) :=
  ⟨(C4_no_redundant_status_volume_notifications sampleState true).1 rfl,
   (C4_no_redundant_status_volume_notifications sampleState true).2
     (show (1 : ℝ) ^ ((1.0 : ℝ) / 3.0) = 1 from Real.one_rpow _)⟩

/-- C5 (code bug): for a song whose artist is absent or empty the published
artist list is `[""]`, not `["Artist Unknown"]` — the fallback operand of
`[song.artist] or ["Artist Unknown"]` is unreachable because a one-element
list is always truthy.  Title and album do receive their placeholders. -/
theorem C5_artist_placeholder_unreachable :
    Option.map (lookupProp "xesam:artist") (_update_metadata noArtistSong sampleWindow)
      = some (some (.strList [""]))
    ∧ (DBusValue.strList [""] ≠ DBusValue.strList ["Artist Unknown"])
    ∧ Option.map (lookupProp "xesam:title")
        (_update_metadata { noArtistSong with title := "", album := "" } sampleWindow)
      = some (some (.str "Title Unknown"))
    ∧ Option.map (lookupProp "xesam:album")
        (_update_metadata { noArtistSong with title := "", album := "" } sampleWindow)
      = some (some (.str "Album Unknown")) := by
  refine ⟨rfl, ?_, rfl, rfl⟩
  simp

/-- C6: for every state, the property descriptors `Introspect` appends for
the two supported interfaces carry exactly the wire types inferred by the
source's ordered chain (string, then boolean, then floating, then integral,
then sequence, then mapping); `Volume` is the only `readwrite` property and
every other property is `read`.  The final conjunct exhibits the required
tie-break: a boolean value also satisfies Python's integer test, yet is
assigned `"b"`. -/
theorem C6_introspect_property_types (s : AdapterState) :
    introspectProps MEDIA_PLAYER2_IFACE s =
      [⟨"CanQuit", "read", some "b"⟩,
       ⟨"CanRaise", "read", some "b"⟩,
       ⟨"HasTrackList", "read", some "b"⟩,
       ⟨"Identity", "read", some "s"⟩,
       ⟨"DesktopEntry", "read", some "s"⟩,
       ⟨"SupportedUriSchemes", "read", some "as"⟩,
       ⟨"SupportedMimeTypes", "read", some "as"⟩]
    ∧ introspectProps MEDIA_PLAYER2_PLAYER_IFACE s =
      [⟨"PlaybackStatus", "read", some "s"⟩,
       ⟨"LoopStatus", "read", some "s"⟩,
       ⟨"Rate", "read", some "d"⟩,
       ⟨"Shuffle", "read", some "b"⟩,
       ⟨"Metadata", "read", some "a{sv}"⟩,
       ⟨"Volume", "readwrite", some "d"⟩,
       ⟨"Position", "read", some "x"⟩,
       ⟨"MinimumRate", "read", some "d"⟩,
       ⟨"MaximumRate", "read", some "d"⟩,
       ⟨"CanGoNext", "read", some "b"⟩,
       ⟨"CanGoPrevious", "read", some "b"⟩,
       ⟨"CanPlay", "read", some "b"⟩,
       ⟨"CanPause", "read", some "b"⟩,
       ⟨"CanSeek", "read", some "b"⟩,
       ⟨"CanControl", "read", some "b"⟩]
    ∧ (∀ b : Bool, inferSignature (.bool b) = some "b" ∧ pyIsInstanceInt (.bool b) = true) :=
  ⟨rfl, rfl, fun _ => ⟨rfl, rfl⟩⟩

/-- C7 counterexample: a write to the read-only player property `Rate` is
NOT rejected — the source's `Set` silently falls through, returning success
with no state change, so the claimed read-only fault never happens. -/
theorem C7_counterexample_readonly_write_accepted :
    Set MEDIA_PLAYER2_PLAYER_IFACE "Rate" 2 sampleState = (.ok (), sampleState) := rfl

/-- C7 (amended): `Set` on the root interface is a silent no-op; on the
player interface a `Volume` write stores the cubed value into the host and
a write to any other player property is silently ignored with no state
change (not rejected); naming any other interface fails with the
unsupported-interface fault; in every no-op or failing case the state is
unchanged. -/
theorem C7_set_dispatch (interface_name property_name : String) (new_value : ℝ)
    (s : AdapterState) :
    (interface_name = MEDIA_PLAYER2_IFACE →
      Set interface_name property_name new_value s = (.ok (), s))
    ∧ (interface_name = MEDIA_PLAYER2_PLAYER_IFACE → property_name = "Volume" →
      Set interface_name property_name new_value s
        = (.ok (), _set_volume (new_value ^ ((3.0 : ℝ) / 1.0)) s))
    ∧ (interface_name = MEDIA_PLAYER2_PLAYER_IFACE → property_name ≠ "Volume" →
      Set interface_name property_name new_value s = (.ok (), s))
    ∧ (interface_name ≠ MEDIA_PLAYER2_IFACE → interface_name ≠ MEDIA_PLAYER2_PLAYER_IFACE →
      Set interface_name property_name new_value s
        = (.error (.unsupportedInterface interface_name), s)) := by
  refine ⟨?_, ?_, ?_, ?_⟩
  · intro h
    subst h
    unfold Set
    rw [if_pos rfl]
  · intro h1 h2
    subst h1
    subst h2
    unfold Set
    rw [if_neg (by decide), if_pos rfl, if_pos rfl]
  · intro h1 h2
    subst h1
    unfold Set
    rw [if_neg (by decide), if_pos rfl, if_neg h2]
  · intro h1 h2
    unfold Set
    rw [if_neg h1, if_neg h2]

/-- C7 witness: the four `Set` dispatch branches at the sample state. -/
theorem C7_set_witness :
    Set MEDIA_PLAYER2_IFACE "Identity" 0 sampleState = (.ok (), sampleState)
    ∧ Set MEDIA_PLAYER2_PLAYER_IFACE "Volume" (1 / 2) sampleState
      = (.ok (), _set_volume (((1 : ℝ) / 2) ^ ((3.0 : ℝ) / 1.0)) sampleState)
    ∧ Set MEDIA_PLAYER2_PLAYER_IFACE "Shuffle" 0 sampleState = (.ok (), sampleState)
    ∧ Set "com.example.Bar" "Volume" 0 sampleState
      = (.error (.unsupportedInterface "com.example.Bar"), sampleState) :=
  ⟨(C7_set_dispatch MEDIA_PLAYER2_IFACE "Identity" 0 sampleState).1 rfl,
   (C7_set_dispatch MEDIA_PLAYER2_PLAYER_IFACE "Volume" (1 / 2) sampleState).2.1 rfl rfl,
   (C7_set_dispatch MEDIA_PLAYER2_PLAYER_IFACE "Shuffle" 0 sampleState).2.2.1 rfl (by decide),
   (C7_set_dispatch "com.example.Bar" "Volume" 0 sampleState).2.2.2 (by decide) (by decide)⟩

/-- C8: with no cached metadata the protocol-visible metadata table is
exactly the two-entry no-track fallback: the no-track trackId and an empty
url, and nothing else. -/
theorem C8_no_track_fallback (s : AdapterState) (h : s._metadata = []) :
    (GetAll MEDIA_PLAYER2_PLAYER_IFACE s).1.map (lookupProp "Metadata")
      = .ok (some (.dict
          [("mpris:trackid", .str "/org/mpris/MediaPlayer2/TrackList/NoTrack"),
           ("xesam:url", .str "")]))
    ∧ (_current_metadata s).map Prod.fst = ["mpris:trackid", "xesam:url"] := by
  have hmeta : _current_metadata s =
      [("mpris:trackid", .str "/org/mpris/MediaPlayer2/TrackList/NoTrack"),
       ("xesam:url", .str "")] := by
    unfold _current_metadata
    rw [h]
    simp
  constructor
  · have hg : (GetAll MEDIA_PLAYER2_PLAYER_IFACE s).1.map (lookupProp "Metadata")
        = .ok (some (.dict (_current_metadata s))) := rfl
    rw [hg, hmeta]
  · rw [hmeta]
    rfl

/-- C8 witness: the fallback at a concrete empty-metadata state. -/
theorem C8_no_track_witness :
    (GetAll MEDIA_PLAYER2_PLAYER_IFACE emptyState).1.map (lookupProp "Metadata")
      = .ok (some (.dict
          [("mpris:trackid", .str "/org/mpris/MediaPlayer2/TrackList/NoTrack"),
           ("xesam:url", .str "")]))
    ∧ (_current_metadata emptyState).map Prod.fst = ["mpris:trackid", "xesam:url"] :=
  C8_no_track_fallback emptyState rfl

/-- C9 counterexample: a track token containing a non-ASCII character
(U+00A1) makes metadata building fail — `bytes(token, 'ascii')` raises a
`UnicodeEncodeError` (modelled by `none`), so building does not succeed for
arbitrary tokens. -/
theorem C9_counterexample_nonascii_token :
    _update_metadata nonAsciiSong sampleWindow = none := rfl

/-- C9 (amended): for every track token consisting of ASCII characters
(when a duration is available so the rest of the build succeeds), metadata
building succeeds and the trackId is the fixed prefix followed by the hex
encoding of the token, and for a nonempty token this trackId is a
syntactically valid object path.  (A non-ASCII token raises instead — see
the counterexample — and the empty token would yield a trailing-slash
path.) -/
theorem C9_trackid_hex_ascii_valid (song : Song) (w : Window) (dur : Int)
    (hascii : song.trackToken.toList.all (fun c => c.toNat < 128) = true)
    (hne : song.trackToken ≠ "")
    (hdur : _current_duration w = some dur) :
    Option.map (lookupProp "mpris:trackid") (_update_metadata song w)
      = some (some (.str ("/io/github/Pithos/TrackId/"
          ++ hexEncode (song.trackToken.toList.map Char.toNat))))
    ∧ isValidObjectPath ("/io/github/Pithos/TrackId/"
          ++ hexEncode (song.trackToken.toList.map Char.toNat)) = true := by
  have hbytes : asciiBytes song.trackToken
      = some (song.trackToken.toList.map Char.toNat) := by
    unfold asciiBytes
    rw [if_pos hascii]
  constructor
  · unfold _update_metadata
    rw [hbytes, hdur]
    rfl
  · have htl : song.trackToken.toList ≠ [] := by
      intro hl
      exact hne (String.ext (hl.trans rfl))
    refine trackid_path_valid _ ?_ ?_
    · intro hmap
      exact htl (List.map_eq_nil_iff.mp hmap)
    · intro b hb
      rw [List.mem_map] at hb
      obtain ⟨c, hc, rfl⟩ := hb
      rw [List.all_eq_true] at hascii
      exact of_decide_eq_true (hascii c hc)

/-- C9 witness: the sample song's token `"ab"` hex-encodes into a valid
trackId path. -/
theorem C9_trackid_witness :
    Option.map (lookupProp "mpris:trackid") (_update_metadata sampleSong sampleWindow)
      = some (some (.str ("/io/github/Pithos/TrackId/"
          ++ hexEncode (sampleSong.trackToken.toList.map Char.toNat))))
    ∧ isValidObjectPath ("/io/github/Pithos/TrackId/"
          ++ hexEncode (sampleSong.trackToken.toList.map Char.toNat)) = true :=
  C9_trackid_hex_ascii_valid sampleSong sampleWindow 5000 (by decide) (by decide) rfl

/-- C10: `Get` on an interface that is neither supported name fails with the
unsupported-interface fault propagated from `GetAll` (the handler only
converts `KeyError`, not bus faults), never with property-not-found, and
the state is unchanged. -/
theorem C10_get_propagates_unsupported (interface_name property_name : String)
    (s : AdapterState)
    (h1 : interface_name ≠ MEDIA_PLAYER2_IFACE)
    (h2 : interface_name ≠ MEDIA_PLAYER2_PLAYER_IFACE) :
    Get interface_name property_name s
      = (.error (.unsupportedInterface interface_name), s) := by
  have hga : GetAll interface_name s
      = (.error (.unsupportedInterface interface_name), s) := by
    unfold GetAll
    rw [if_neg h1, if_neg h2]
  unfold Get
  rw [hga]

/-- C10 witness: `Get` of `Volume` on an unknown interface yields the
unsupported-interface fault. -/
theorem C10_get_witness :
    Get "com.example.Baz" "Volume" sampleState
      = (.error (.unsupportedInterface "com.example.Baz"), sampleState) :=
  C10_get_propagates_unsupported "com.example.Baz" "Volume" sampleState
    (by decide) (by decide)

end Mpris
